import Mathlib

/-!
Shallow embedding of the paper-trading engine of this repository:
the position ledger (`src/storage/virtual_portfolio.py`), the execution
cost models (`src/utils/spread.py`, `src/utils/slippage.py`), the risk
manager (`src/utils/risk_manager.py`), the trading restrictions
(`src/utils/trading_restrictions.py`) and the performance metrics
(`src/analysis/performance_metrics.py`).

Modelling conventions:
- Python `Decimal` / `float` arithmetic is idealised as exact rational
  arithmetic over `ℚ`.
- Python dicts keyed by ticker strings are modelled as association lists
  over an abstract ticker type `Ticker := ℕ`; well-formed states have
  nodup keys, as Python dicts do intrinsically.
- Environment inputs (wall clock date, trading-calendar verdict, the
  uniform jitter draw of the slippage simulator, timestamps) are passed
  explicitly in an `Env` record.
- Human-readable rejection reasons are modelled as an enumerated type,
  abstracting the formatted message text.
-/

/-- Tickers: python keys instruments by their ticker string; we use an
abstract key type with decidable equality. -/
abbrev Ticker : Type := Nat

/-- Association-list lookup, modelling `dict.get` / `dict[k]`. -/
def lookupKey {α : Type} : List (Ticker × α) → Ticker → Option α
  | [], _ => none
  | kv :: rest, t => if kv.1 = t then some kv.2 else lookupKey rest t

/-- Association-list update, modelling `dict[k] = v`: replaces the binding
in place if the key is present, appends otherwise (insertion order kept,
as in a Python dict). -/
def setKey {α : Type} : List (Ticker × α) → Ticker → α → List (Ticker × α)
  | [], t, v => [(t, v)]
  | kv :: rest, t, v => if kv.1 = t then (t, v) :: rest else kv :: setKey rest t v

/-- Association-list deletion, modelling `del dict[k]`. -/
def eraseKey {α : Type} : List (Ticker × α) → Ticker → List (Ticker × α)
  | [], _ => []
  | kv :: rest, t => if kv.1 = t then eraseKey rest t else kv :: eraseKey rest t

/-- Well-formedness of the dict model: no key bound twice. -/
def keysNodup {α : Type} (l : List (Ticker × α)) : Prop :=
  (l.map Prod.fst).Nodup

/-- Round-half-to-even on rationals: the rounding used by Python's
`Decimal.quantize(Decimal(1))` with the default `ROUND_HALF_EVEN`. -/
def roundHalfEven (q : ℚ) : ℤ :=
  let f : ℤ := ⌊q⌋
  let frac : ℚ := q - f
  if frac < 1/2 then f
  else if 1/2 < frac then f + 1
  else if f % 2 = 0 then f else f + 1

/-- Order direction, `'buy'` / `'sell'` in the source. -/
inductive Direction : Type
  | buy
  | sell
deriving DecidableEq, Repr

/-- `SpreadCalculator.__init__` state (`src/utils/spread.py`): the four
percent parameters, already divided by 100 as the constructor does. -/
structure SpreadCalculator : Type where
  base_spread : ℚ
  volatility_multiplier : ℚ
  min_spread : ℚ
  max_spread : ℚ
deriving DecidableEq, Repr

/-- `SpreadCalculator.__init__`: percent arguments divided by 100. -/
def SpreadCalculator.init (base_spread_percent volatility_multiplier
    min_spread_percent max_spread_percent : ℚ) : SpreadCalculator :=
  { base_spread := base_spread_percent / 100
    volatility_multiplier := volatility_multiplier
    min_spread := min_spread_percent / 100
    max_spread := max_spread_percent / 100 }

/-- The clamped spread percentage of `SpreadCalculator.calculate_spread`
(steps 1-3 of the source): base spread, plus the volatility adjustment
when both ATRs are known, `avg_atr > 0` and the ratio exceeds 1, clamped
into `[min_spread, max_spread]`. -/
def SpreadCalculator.spreadPercent (sc : SpreadCalculator)
    (atr avg_atr : Option ℚ) : ℚ :=
  let base := sc.base_spread
  let adjusted :=
    match atr, avg_atr with
    | some a, some av =>
        if 0 < av then
          if 1 < a / av then base + (a / av - 1) * sc.base_spread * sc.volatility_multiplier
          else base
        else base
    | some _, none => base
    | none, some _ => base
    | none, none => base
  max sc.min_spread (min adjusted sc.max_spread)

/-- `SpreadCalculator.calculate_spread`: the absolute spread amount, with
the tick-size rounding of steps 4-5 (quantize = round half to even, and a
floor of one tick) when `min_price_increment` is supplied and positive. -/
def SpreadCalculator.calculate_spread (sc : SpreadCalculator) (mid_price : ℚ)
    (atr avg_atr : Option ℚ) (min_price_increment : Option ℚ) : ℚ :=
  let spread_amount := mid_price * sc.spreadPercent atr avg_atr
  match min_price_increment with
  | some tick =>
      if 0 < tick then
        let rounded := (roundHalfEven (spread_amount / tick) : ℚ) * tick
        if rounded < tick then tick else rounded
      else spread_amount
  | none => spread_amount

/-- `SpreadCalculator.get_bid_ask_prices`: mid ∓ spread/2. -/
def SpreadCalculator.get_bid_ask_prices (sc : SpreadCalculator) (mid_price : ℚ)
    (atr avg_atr : Option ℚ) (min_price_increment : Option ℚ) : ℚ × ℚ :=
  let spread := sc.calculate_spread mid_price atr avg_atr min_price_increment
  let half := spread / 2
  (mid_price - half, mid_price + half)

/-- `SpreadCalculator.get_execution_price`: ask for a buy, bid for a sell. -/
def SpreadCalculator.get_execution_price (sc : SpreadCalculator) (mid_price : ℚ)
    (direction : Direction) (atr avg_atr : Option ℚ)
    (min_price_increment : Option ℚ) : ℚ :=
  let ba := sc.get_bid_ask_prices mid_price atr avg_atr min_price_increment
  match direction with
  | .buy => ba.2
  | .sell => ba.1

/-- `SlippageSimulator.__init__` state (`src/utils/slippage.py`): percent
parameters already divided by 100 as the constructor does
(`volatility_multiplier` is used as given). -/
structure SlippageSimulator : Type where
  base_slippage : ℚ
  volume_factor : ℚ
  volatility_multiplier : ℚ
  max_slippage : ℚ
deriving DecidableEq, Repr

/-- `SlippageSimulator.__init__`: percent arguments divided by 100. -/
def SlippageSimulator.init (base_slippage_percent volume_factor_per_10_lots
    volatility_multiplier max_slippage_percent : ℚ) : SlippageSimulator :=
  { base_slippage := base_slippage_percent / 100
    volume_factor := volume_factor_per_10_lots / 100
    volatility_multiplier := volatility_multiplier
    max_slippage := max_slippage_percent / 100 }

/-- The slippage fraction before the jitter draw: base + per-10-lots
volume term + volatility term, capped at `max_slippage`
(steps 1-4 of `SlippageSimulator.calculate_slippage`). -/
def SlippageSimulator.slippageBeforeJitter (s : SlippageSimulator) (lots : ℤ)
    (atr avg_atr : Option ℚ) : ℚ :=
  let abs_lots := lots.natAbs
  let volume_slippage := ((abs_lots / 10 : ℕ) : ℚ) * s.volume_factor
  let base := s.base_slippage + volume_slippage
  let with_vol :=
    match atr, avg_atr with
    | some a, some av =>
        if 0 < av then
          if 1 < a / av then base + (a / av - 1) * s.base_slippage * s.volatility_multiplier
          else base
        else base
    | some _, none => base
    | none, some _ => base
    | none, none => base
  min with_vol s.max_slippage

/-- `SlippageSimulator.calculate_slippage`: the executed price. The uniform
draw `random.uniform(0.8, 1.2)` of step 5 is passed in explicitly as
`jitter`; step 6 applies the slippage adversely per direction. -/
def SlippageSimulator.calculate_slippage (s : SlippageSimulator)
    (expected_price : ℚ) (lots : ℤ) (direction : Direction)
    (atr avg_atr : Option ℚ) (jitter : ℚ) : ℚ :=
  let slippage := s.slippageBeforeJitter lots atr avg_atr * jitter
  match direction with
  | .buy => expected_price * (1 + slippage)
  | .sell => expected_price * (1 - slippage)

/-- The rejection reasons of the risk manager, abstracting the formatted
message strings of `src/utils/risk_manager.py`. -/
inductive RiskReason : Type
  | drawdownExceeded
  | dailyLossExceeded
  | maxPositionsReached
  | positionTooLarge
deriving DecidableEq, Repr

/-- `RiskManager` state (`src/utils/risk_manager.py`): the configured
limits (already divided by 100 as in `__init__`) and the tracked state:
peak balance, daily baseline balance and its capture date, and the sticky
pause flag with its reason. Dates are abstracted as naturals. -/
structure RiskManager : Type where
  max_drawdown : ℚ
  risk_per_trade : ℚ
  max_positions : ℕ
  daily_loss_limit : ℚ
  max_position_size : ℚ
  peak_balance : ℚ
  daily_start_balance : ℚ
  daily_reset_date : Option ℕ
  trading_paused : Bool
  pause_reason : Option RiskReason
deriving DecidableEq, Repr

/-- `RiskManager.__init__`: percent arguments divided by 100; tracking
state starts at zero peak, zero daily baseline, no reset date, not
paused. -/
def RiskManager.init (max_drawdown_percent risk_per_trade_percent : ℚ)
    (max_open_positions : ℕ)
    (daily_loss_limit_percent max_position_size_percent : ℚ) : RiskManager :=
  { max_drawdown := max_drawdown_percent / 100
    risk_per_trade := risk_per_trade_percent / 100
    max_positions := max_open_positions
    daily_loss_limit := daily_loss_limit_percent / 100
    max_position_size := max_position_size_percent / 100
    peak_balance := 0
    daily_start_balance := 0
    daily_reset_date := none
    trading_paused := false
    pause_reason := none }

/-- `RiskManager.update_peak_balance`: raise the watermark if the current
balance exceeds it. -/
def RiskManager.update_peak_balance (rm : RiskManager) (current_balance : ℚ) :
    RiskManager :=
  if rm.peak_balance < current_balance then { rm with peak_balance := current_balance }
  else rm

/-- `RiskManager.calculate_drawdown`: `(peak - balance) / peak`, 0 when the
peak is 0. -/
def RiskManager.calculate_drawdown (rm : RiskManager) (current_balance : ℚ) : ℚ :=
  if rm.peak_balance = 0 then 0
  else (rm.peak_balance - current_balance) / rm.peak_balance

/-- `RiskManager.check_max_drawdown`: fail when the drawdown reaches the
configured maximum. -/
def RiskManager.check_max_drawdown (rm : RiskManager) (current_balance : ℚ) :
    Bool × Option RiskReason :=
  if rm.max_drawdown ≤ rm.calculate_drawdown current_balance then
    (false, some .drawdownExceeded)
  else (true, none)

/-- `RiskManager.reset_daily_tracking`: capture a fresh daily baseline when
the current date differs from the stored reset date. -/
def RiskManager.reset_daily_tracking (rm : RiskManager) (today : ℕ)
    (current_balance : ℚ) : RiskManager :=
  if rm.daily_reset_date ≠ some today then
    { rm with daily_start_balance := current_balance, daily_reset_date := some today }
  else rm

/-- `RiskManager.calculate_daily_pnl`: relative P&L against the daily
baseline, 0 when the baseline is 0. -/
def RiskManager.calculate_daily_pnl (rm : RiskManager) (current_balance : ℚ) : ℚ :=
  if rm.daily_start_balance = 0 then 0
  else (current_balance - rm.daily_start_balance) / rm.daily_start_balance

/-- `RiskManager.check_daily_loss_limit`: reset the daily baseline, then
fail when the daily P&L is at or below the negated limit. Returns the
verdict together with the updated tracking state. -/
def RiskManager.check_daily_loss_limit (rm : RiskManager) (today : ℕ)
    (current_balance : ℚ) : (Bool × Option RiskReason) × RiskManager :=
  let rm1 := rm.reset_daily_tracking today current_balance
  if rm1.calculate_daily_pnl current_balance ≤ -rm1.daily_loss_limit then
    ((false, some .dailyLossExceeded), rm1)
  else ((true, none), rm1)

/-- `RiskManager.check_position_count`: fail when the open-position count
has reached the maximum. -/
def RiskManager.check_position_count (rm : RiskManager) (current_positions : ℕ) :
    Bool × Option RiskReason :=
  if rm.max_positions ≤ current_positions then (false, some .maxPositionsReached)
  else (true, none)

/-- `RiskManager.validate_position_size`: fail when the position value
exceeds `balance × max_position_size`. -/
def RiskManager.validate_position_size (rm : RiskManager) (balance : ℚ)
    (position_value : ℚ) : Bool × Option RiskReason :=
  if balance * rm.max_position_size < position_value then (false, some .positionTooLarge)
  else (true, none)

/-- `RiskManager.can_open_position`: the four checks in source order with
short-circuiting; a drawdown or daily-loss failure sets the sticky
`trading_paused` flag with its reason. Returns the verdict with its reason
and the updated risk-manager state. -/
def RiskManager.can_open_position (rm : RiskManager) (today : ℕ)
    (current_balance : ℚ) (current_positions : ℕ) (position_value : ℚ) :
    (Bool × Option RiskReason) × RiskManager :=
  let dd := rm.check_max_drawdown current_balance
  if dd.1 = false then
    ((false, dd.2), { rm with trading_paused := true, pause_reason := dd.2 })
  else
    let dl := rm.check_daily_loss_limit today current_balance
    let rm1 := dl.2
    if dl.1.1 = false then
      ((false, dl.1.2), { rm1 with trading_paused := true, pause_reason := dl.1.2 })
    else
      let pc := rm1.check_position_count current_positions
      if pc.1 = false then ((false, pc.2), rm1)
      else
        let ps := rm1.validate_position_size current_balance position_value
        if ps.1 = false then ((false, ps.2), rm1)
        else ((true, none), rm1)

/-- `RiskManager.resume_trading`: clear the pause flag and its reason. -/
def RiskManager.resume_trading (rm : RiskManager) : RiskManager :=
  { rm with trading_paused := false, pause_reason := none }

/-- `TradingRestrictions.validate_position_size`
(`src/utils/trading_restrictions.py`): zero lots (a close) is always
allowed, otherwise the absolute lot count must reach the minimum of 1. -/
def TradingRestrictions.validate_position_size (lots : ℤ) : Bool :=
  let abs_lots := lots.natAbs
  if abs_lots = 0 then true
  else if abs_lots < 1 then false
  else true

/-- A position entry of `VirtualPortfolio.data["positions"]`
(`src/storage/virtual_portfolio.py`): signed lots (negative = long in the
source's convention), the latest fill price, optional stop levels, the
reserved margin, the persistent trade id and opening timestamp, and the
commission accumulated across resizes. -/
structure Position : Type where
  lots : ℤ
  avg_price : ℚ
  stop_loss : Option ℚ
  take_profit : Option ℚ
  margin : ℚ
  trade_id : Option ℕ
  opened_at : Option ℕ
  accumulated_commission : ℚ
deriving DecidableEq, Repr

/-- The default position dict used by `update_position` when the ticker
has no entry. -/
def defaultPos : Position :=
  { lots := 0, avg_price := 0, stop_loss := none, take_profit := none
    margin := 0, trade_id := none, opened_at := none, accumulated_commission := 0 }

/-- The action field of a trade record. -/
inductive TradeAction : Type
  | update
  | close
deriving DecidableEq, Repr

/-- An entry of `VirtualPortfolio.data["history"]`; fields that appear in
only one of the two record shapes ("update" / "close") are optional. -/
structure TradeRecord : Type where
  trade_id : Option ℕ
  ticker : Ticker
  action : TradeAction
  lots : ℤ
  expected_price : ℚ
  execution_price : ℚ
  profit : Option ℚ
  commission : ℚ
  net_profit : Option ℚ
  margin_released : Option ℚ
  margin_reserved : Option ℚ
  stop_loss : Option ℚ
  take_profit : Option ℚ
  opened_at : Option ℕ
  timestamp : ℕ
deriving DecidableEq, Repr

/-- `VirtualPortfolio.data`: the persisted ledger dict. -/
structure PortfolioData : Type where
  balance : ℚ
  initial_balance : ℚ
  positions : List (Ticker × Position)
  history : List TradeRecord
  used_margin : ℚ
  total_commission : ℚ
  total_slippage_cost : ℚ
  total_spread_cost : ℚ
  next_trade_id : ℕ
  balance_history : List ℚ
  atr_history : List (Ticker × List ℚ)
deriving DecidableEq, Repr

/-- The fresh ledger dict built in `VirtualPortfolio.__init__` from the
configured initial balance. -/
def initData (initial_balance : ℚ) : PortfolioData :=
  { balance := initial_balance
    initial_balance := initial_balance
    positions := []
    history := []
    used_margin := 0
    total_commission := 0
    total_slippage_cost := 0
    total_spread_cost := 0
    next_trade_id := 1
    balance_history := []
    atr_history := [] }

/-- The `VirtualPortfolio` object: the ledger dict, the commission rate and
the optional realism/risk components (each `None` when disabled in the
configuration). -/
structure Portfolio : Type where
  data : PortfolioData
  commission_rate : ℚ
  spread_calculator : Option SpreadCalculator
  slippage_simulator : Option SlippageSimulator
  risk_manager : Option RiskManager
deriving DecidableEq, Repr

/-- Environment inputs consumed by one `update_position` call: the
trading-calendar verdict (`TradingRestrictions.can_trade`), today's date
(for daily risk tracking), the current timestamp (for record fields) and
the jitter drawn by the slippage simulator. -/
structure Env : Type where
  canTrade : Bool
  today : ℕ
  now : ℕ
  jitter : ℚ
deriving DecidableEq, Repr

/-- Python truthiness of the optional `atr` argument (`if atr:`): present
and nonzero. -/
def atrTruthy : Option ℚ → Bool
  | none => false
  | some a => a ≠ 0

/-- `VirtualPortfolio._update_atr_history`: append the ATR to the ticker's
ring buffer and keep only the last `max_history` entries. -/
def updAtrHistory (h : List (Ticker × List ℚ)) (ticker : Ticker) (atr : ℚ)
    (max_history : ℕ) : List (Ticker × List ℚ) :=
  let cur := (lookupKey h ticker).getD []
  let appended := cur ++ [atr]
  let bounded :=
    if max_history < appended.length then appended.drop (appended.length - max_history)
    else appended
  setKey h ticker bounded

/-- The average ATR computed at the start of
`VirtualPortfolio._calculate_execution_price`: defined only when the
`atr` argument is truthy and the ticker has a nonempty ATR history. -/
def avgAtr (d : PortfolioData) (ticker : Ticker) (atr : Option ℚ) : Option ℚ :=
  if atrTruthy atr then
    match lookupKey d.atr_history ticker with
    | some l => if l.length ≠ 0 then some (l.sum / (l.length : ℚ)) else none
    | none => none
  else none

/-- `VirtualPortfolio._calculate_execution_price`: apply the spread model
(if enabled) to the expected price, accruing the lifetime spread cost, then
the slippage model (if enabled) on top, accruing the lifetime slippage cost
(both costs measured against the original expected price). Returns the
execution price and the updated ledger dict. -/
def calcExecutionPrice (p : Portfolio) (d : PortfolioData) (ticker : Ticker)
    (expected_price : ℚ) (lots : ℤ) (direction : Direction) (atr : Option ℚ)
    (jitter : ℚ) : ℚ × PortfolioData :=
  let avg_atr := avgAtr d ticker atr
  let afterSpread : ℚ × PortfolioData :=
    match p.spread_calculator with
    | some sc =>
        let e := sc.get_execution_price expected_price direction atr avg_atr none
        (e, { d with total_spread_cost :=
                d.total_spread_cost + |e - expected_price| * (lots.natAbs : ℚ) })
    | none => (expected_price, d)
  match p.slippage_simulator with
  | some ss =>
      let e2 := ss.calculate_slippage afterSpread.1 lots direction atr avg_atr jitter
      (e2, { afterSpread.2 with total_slippage_cost :=
               afterSpread.2.total_slippage_cost
                 + |e2 - expected_price| * (lots.natAbs : ℚ) })
  | none => afterSpread

/-- The risk-management gate of `update_position`: consulted only when a
risk manager is configured and `target_lots != 0`; returns the verdict and
the risk manager to carry forward. -/
def riskGate (orm : Option RiskManager) (today : ℕ) (balance : ℚ)
    (npositions : ℕ) (position_value : ℚ) (target_lots : ℤ) :
    Bool × Option RiskManager :=
  match orm with
  | none => (true, none)
  | some rm =>
      if target_lots = 0 then (true, some rm)
      else
        let r := rm.can_open_position today balance npositions position_value
        (r.1.1, some r.2)

/-- The outcome tag of one `update_position` call (the source returns
`None` everywhere; this tag records which exit was taken). -/
inductive UpdateResult : Type
  | noop
  | rejectedMarket
  | rejectedSize
  | rejectedRisk
  | rejectedFunds
  | closed
  | updated
deriving DecidableEq, Repr

/-- The close path of `update_position` (`target_lots == 0`): price the
close adversely per the existing direction, realise
`profit = (execution - avg) * lots`, charge commission on the closing
turnover, release the margin, append to the balance history and the trade
history, and delete the position. -/
def closePath (p : Portfolio) (env : Env) (ticker : Ticker)
    (current_pos : Position) (current_price : ℚ) (atr : Option ℚ) :
    Portfolio × UpdateResult :=
  let direction := if current_pos.lots < 0 then Direction.sell else Direction.buy
  let ed := calcExecutionPrice p p.data ticker current_price current_pos.lots
      direction atr env.jitter
  let execution_price := ed.1
  let d := ed.2
  let profit := (execution_price - current_pos.avg_price) * (current_pos.lots : ℚ)
  let turnover := |execution_price * (current_pos.lots : ℚ)|
  let commission := turnover * p.commission_rate
  let released_margin := current_pos.margin
  let net_profit := profit - commission
  let new_balance := d.balance + released_margin + net_profit
  let record : TradeRecord :=
    { trade_id := current_pos.trade_id
      ticker := ticker
      action := .close
      lots := current_pos.lots
      expected_price := current_price
      execution_price := execution_price
      profit := some profit
      commission := commission
      net_profit := some net_profit
      margin_released := some released_margin
      margin_reserved := none
      stop_loss := none
      take_profit := none
      opened_at := current_pos.opened_at
      timestamp := env.now }
  let d2 : PortfolioData :=
    { d with
      balance := new_balance
      used_margin := d.used_margin - released_margin
      total_commission := d.total_commission + commission
      balance_history := d.balance_history ++ [new_balance]
      history := d.history ++ [record]
      positions := eraseKey d.positions ticker }
  ({ p with data := d2 }, .closed)

/-- The open/resize path of `update_position` (`target_lots != 0`): price
the trade, compute the required margin (defaulting `margin_per_lot` to 10%
of the execution price), reject on insufficient free balance, otherwise
charge commission on the traded delta, adjust balance and used margin,
preserve the trade id and opening time across resizes, and append an
"update" record. -/
def openPath (p : Portfolio) (env : Env) (ticker : Ticker)
    (current_pos : Position) (target_lots diff_lots : ℤ) (current_price : ℚ)
    (stop_loss take_profit : Option ℚ) (margin_per_lot : Option ℚ)
    (atr : Option ℚ) : Portfolio × UpdateResult :=
  let direction := if target_lots < 0 then Direction.buy else Direction.sell
  let ed := calcExecutionPrice p p.data ticker current_price target_lots
      direction atr env.jitter
  let execution_price := ed.1
  let d := ed.2
  let mpl := margin_per_lot.getD (execution_price * (1/10))
  let required_margin := mpl * (target_lots.natAbs : ℚ)
  let available_balance := d.balance - d.used_margin
  if available_balance < required_margin then ({ p with data := d }, .rejectedFunds)
  else
    let turnover := |execution_price * (diff_lots.natAbs : ℚ)|
    let commission := turnover * p.commission_rate
    let old_margin := current_pos.margin
    let margin_diff := required_margin - old_margin
    let trade_id := current_pos.trade_id.getD d.next_trade_id
    let next_id := if current_pos.trade_id = none then d.next_trade_id + 1
                   else d.next_trade_id
    let opened_at := current_pos.opened_at.getD env.now
    let accumulated_commission := current_pos.accumulated_commission + commission
    let newPos : Position :=
      { lots := target_lots
        avg_price := execution_price
        stop_loss := stop_loss
        take_profit := take_profit
        margin := required_margin
        trade_id := some trade_id
        opened_at := some opened_at
        accumulated_commission := accumulated_commission }
    let record : TradeRecord :=
      { trade_id := some trade_id
        ticker := ticker
        action := .update
        lots := target_lots
        expected_price := current_price
        execution_price := execution_price
        profit := none
        commission := commission
        net_profit := none
        margin_released := none
        margin_reserved := some required_margin
        stop_loss := stop_loss
        take_profit := take_profit
        opened_at := none
        timestamp := env.now }
    let d2 : PortfolioData :=
      { d with
        balance := d.balance - (margin_diff + commission)
        used_margin := d.used_margin + margin_diff
        total_commission := d.total_commission + commission
        next_trade_id := next_id
        positions := setKey d.positions ticker newPos
        history := d.history ++ [record] }
    ({ p with data := d2 }, .updated)

/-- Lines 254-256 of `update_position`: the ledger dict after the optional
ATR-history update (`if atr: self._update_atr_history(ticker, atr)`). -/
def preparedData (d : PortfolioData) (ticker : Ticker) (atr : Option ℚ) :
    PortfolioData :=
  if atrTruthy atr then
    { d with atr_history := updAtrHistory d.atr_history ticker (atr.getD 0) 100 }
  else d

/-- Lines 254-271 of `update_position`: the portfolio after the ATR update
and the risk-manager consultation (which mutates the risk manager's
tracking state), together with the risk verdict
(`position_value = abs(current_price * abs(target_lots))`). -/
def gatedPortfolio (p : Portfolio) (env : Env) (ticker : Ticker)
    (target_lots : ℤ) (current_price : ℚ) (atr : Option ℚ) :
    Portfolio × Bool :=
  let data1 := preparedData p.data ticker atr
  let rg := riskGate p.risk_manager env.today data1.balance
      data1.positions.length (|current_price * (target_lots.natAbs : ℚ)|)
      target_lots
  ({ p with data := data1, risk_manager := rg.2 }, rg.1)

/-- `VirtualPortfolio.update_position`: the public mutation entry point.
Order of the source: no-op on zero lot difference; reject when the
trading calendar disallows trading; reject invalid sizes; update the ATR
ring buffer when `atr` is truthy; consult the risk manager when
`target_lots != 0`; then take the close path (`target_lots == 0`) or the
open/resize path. -/
def update_position (p : Portfolio) (env : Env) (ticker : Ticker)
    (target_lots : ℤ) (current_price : ℚ) (stop_loss take_profit : Option ℚ)
    (margin_per_lot : Option ℚ) (atr : Option ℚ) : Portfolio × UpdateResult :=
  let current_pos := (lookupKey p.data.positions ticker).getD defaultPos
  let diff_lots := target_lots - current_pos.lots
  if diff_lots = 0 then (p, .noop)
  else if env.canTrade = false then (p, .rejectedMarket)
  else if TradingRestrictions.validate_position_size target_lots = false then
    (p, .rejectedSize)
  else
    let g := gatedPortfolio p env ticker target_lots current_price atr
    if g.2 = false then (g.1, .rejectedRisk)
    else if target_lots = 0 then
      closePath g.1 env ticker current_pos current_price atr
    else
      openPath g.1 env ticker current_pos target_lots diff_lots current_price
        stop_loss take_profit margin_per_lot atr

/-- Arithmetic mean of a list of returns (`np.mean`). -/
def listMean (l : List ℚ) : ℚ := l.sum / (l.length : ℚ)

/-- Sample variance (`np.std(..., ddof=1) ** 2`): sum of squared deviations
from the mean over `n - 1`. Sample standard deviation is its square root,
so it is zero exactly when this is zero. -/
def sampleVariance (l : List ℚ) : ℚ :=
  ((l.map (fun x => (x - listMean l) ^ 2)).sum) / ((l.length : ℚ) - 1)

/-- `PerformanceMetrics.calculate_sharpe_ratio`
(`src/analysis/performance_metrics.py`): 0 for fewer than two returns or a
zero sample standard deviation, otherwise the annualised ratio
`((mean - risk_free/periods) / std) * sqrt(periods)`. -/
noncomputable def calculate_sharpe_ratio (risk_free_rate : ℚ) (returns : List ℚ)
    (periods_per_year : ℚ) : ℝ :=
  if returns.length < 2 then 0
  else
    let mean_return := listMean returns
    let variance := sampleVariance returns
    if variance = 0 then 0
    else ((mean_return - risk_free_rate / periods_per_year : ℚ) : ℝ)
          / Real.sqrt (variance : ℝ) * Real.sqrt (periods_per_year : ℝ)

/-- `float(t.get('net_profit', 0))`: the net profit a trade record
contributes to the metrics, 0 when absent. -/
def netProfitOf (t : TradeRecord) : ℚ := t.net_profit.getD 0

/-- `PerformanceMetrics.calculate_profit_factor`: 0 for no trades;
gross profit over gross loss; `+inf` (modelled as `⊤` in `WithTop ℚ`)
when the gross loss is zero and the gross profit positive, 0 when both
are zero. -/
def calculate_profit_factor (trades : List TradeRecord) : WithTop ℚ :=
  if trades = [] then 0
  else
    let gross_profit := ((trades.filter fun t => 0 < netProfitOf t).map netProfitOf).sum
    let gross_loss := |((trades.filter fun t => netProfitOf t < 0).map netProfitOf).sum|
    if gross_loss = 0 then (if 0 < gross_profit then ⊤ else 0)
    else ((gross_profit / gross_loss : ℚ) : WithTop ℚ)

/-- A raw persisted snapshot as `VirtualPortfolio._load` consumes it:
each field whose conversion (`Decimal(str(...))`, key access) can raise is
an `Except Unit`; the fields copied verbatim from the parsed JSON cannot
raise. -/
structure RawSnapshot : Type where
  balance : Except Unit ℚ
  positions : Except Unit (List (Ticker × Position))
  history : List TradeRecord
  used_margin : Except Unit ℚ
  total_commission : Except Unit ℚ
  total_slippage_cost : Except Unit ℚ
  total_spread_cost : Except Unit ℚ
  next_trade_id : ℕ
  initial_balance : Except Unit ℚ
  balance_history : List ℚ
  atr_history : List (Ticker × List ℚ)

/-- Whether reading the snapshot raises somewhere, i.e. some field
conversion fails: this is the "load error" case of the `try` block. -/
def loadRaises (r : RawSnapshot) : Bool :=
  !r.balance.isOk || !r.positions.isOk || !r.used_margin.isOk ||
  !r.total_commission.isOk || !r.total_slippage_cost.isOk ||
  !r.total_spread_cost.isOk || !r.initial_balance.isOk

/-- The body of `VirtualPortfolio._load`'s `try` block: the snapshot's
fields are assigned to `self.data` one at a time in source order; the
first conversion that raises aborts the block, and the exception handler
keeps whatever was assigned up to that point (it only logs and re-saves).
The result is the in-memory ledger dict after `__init__`. -/
def loadFrom (d0 : PortfolioData) (r : RawSnapshot) : PortfolioData :=
  match r.balance with
  | .error _ => d0
  | .ok b =>
    let d1 := { d0 with balance := b }
    match r.positions with
    | .error _ => d1
    | .ok ps =>
      let d2 := { d1 with positions := ps, history := r.history }
      match r.used_margin with
      | .error _ => d2
      | .ok um =>
        let d3 := { d2 with used_margin := um }
        match r.total_commission with
        | .error _ => d3
        | .ok tc =>
          let d4 := { d3 with total_commission := tc }
          match r.total_slippage_cost with
          | .error _ => d4
          | .ok tsl =>
            let d5 := { d4 with total_slippage_cost := tsl }
            match r.total_spread_cost with
            | .error _ => d5
            | .ok tsp =>
              let d6 := { d5 with total_spread_cost := tsp, next_trade_id := r.next_trade_id }
              match r.initial_balance with
              | .error _ => d6
              | .ok ib =>
                { d6 with
                  initial_balance := ib
                  balance_history := r.balance_history
                  atr_history := r.atr_history }

/-- `VirtualPortfolio.__init__` + `_load`: a missing file or a snapshot
whose JSON parse fails outright leaves the fresh default ledger; an
individually-parsed snapshot is folded over the defaults field by field. -/
def loadLedger (default_balance : ℚ) (file : Option (Except Unit RawSnapshot)) :
    PortfolioData :=
  match file with
  | none => initData default_balance
  | some (.error _) => initData default_balance
  | some (.ok r) => loadFrom (initData default_balance) r

/-- Modelled from the spec's words for claim comparison: the spread amount
"rounded up to the nearest `tick_size` if supplied (minimum one tick)". -/
def specRoundUpSpread (sc : SpreadCalculator) (mid_price : ℚ)
    (atr avg_atr : Option ℚ) (tick : ℚ) : ℚ :=
  max tick ((⌈mid_price * sc.spreadPercent atr avg_atr / tick⌉ : ℚ) * tick)

/-- Sum of the reserved margins over all open positions. -/
def sumMargins (l : List (Ticker × Position)) : ℚ :=
  (l.map fun kv => kv.2.margin).sum

/-- The ledger invariant of the spec: `used_margin == Σ margin` over the
open positions. -/
def marginInvariant (d : PortfolioData) : Prop :=
  d.used_margin = sumMargins d.positions

/-- The ledger fields a rejected mutation leaves unchanged on the
risk-veto and insufficient-funds paths: everything except the ATR ring
buffer and the lifetime spread/slippage cost counters. -/
def coreFrame (d d' : PortfolioData) : Prop :=
  d'.balance = d.balance ∧ d'.initial_balance = d.initial_balance ∧
  d'.used_margin = d.used_margin ∧ d'.positions = d.positions ∧
  d'.history = d.history ∧ d'.balance_history = d.balance_history ∧
  d'.total_commission = d.total_commission ∧ d'.next_trade_id = d.next_trade_id

/-- The ledger of the §8 scenario: spread, slippage and risk manager
disabled, commission rate 0.0005, initial balance 200000. -/
def scenarioLedger : Portfolio :=
  { data := initData 200000
    commission_rate := 5/10000
    spread_calculator := none
    slippage_simulator := none
    risk_manager := none }

/-- A permissive environment for concrete runs (market open). -/
def scenarioEnv : Env := { canTrade := true, today := 0, now := 0, jitter := 1 }

/-- Scenario step 1: open with `target_lots = -2` at price 100 with
`margin_per_lot = 10`. -/
def scenarioOpen : Portfolio × UpdateResult :=
  update_position scenarioLedger scenarioEnv 0 (-2) 100 none none (some 10) none

/-- Scenario step 2: close (`target_lots = 0`) at price 110. -/
def scenarioClose : Portfolio × UpdateResult :=
  update_position scenarioOpen.1 scenarioEnv 0 0 110 none none none none

def c3rm0 : RiskManager := RiskManager.init 20 2 5 5 25

def c3rm1 : RiskManager := c3rm0.update_peak_balance 200000

def c3call1 : (Bool × Option RiskReason) × RiskManager :=
  c3rm1.can_open_position 0 100000 0 1

def c3call2 : (Bool × Option RiskReason) × RiskManager :=
  c3call1.2.can_open_position 0 200000 0 1

/-- The risk-manager state after the vetoed first call: paused, peak kept. -/
def c3rm2 : RiskManager :=
  { max_drawdown := 1/5, risk_per_trade := 1/50, max_positions := 5
    daily_loss_limit := 1/20, max_position_size := 1/4, peak_balance := 200000
    daily_start_balance := 0, daily_reset_date := none
    trading_paused := true, pause_reason := some RiskReason.drawdownExceeded }

def c6sim : SlippageSimulator := SlippageSimulator.init 2 1 2 50

def c7trade : TradeRecord :=
  { trade_id := some 1, ticker := 0, action := .close, lots := -2
    expected_price := 100, execution_price := 100, profit := some 5
    commission := 0, net_profit := some 5, margin_released := some 0
    margin_reserved := none, stop_loss := none, take_profit := none
    opened_at := some 0, timestamp := 0 }

def c8sc : SpreadCalculator := SpreadCalculator.init 3 (3/2) 1 10

def c9raw : RawSnapshot :=
  { balance := .ok 500, positions := .error (), history := []
    used_margin := .ok 0, total_commission := .ok 0
    total_slippage_cost := .ok 0, total_spread_cost := .ok 0
    next_trade_id := 1, initial_balance := .ok 200000
    balance_history := [], atr_history := [] }

def c4p : Portfolio :=
  { data := initData 200000
    commission_rate := 5/10000
    spread_calculator := none
    slippage_simulator := none
    risk_manager := some (RiskManager.init 20 2 0 5 25) }

lemma lookupKey_eq_none_of_not_mem {α : Type} (l : List (Ticker × α)) (t : Ticker)
    (h : t ∉ l.map Prod.fst) : lookupKey l t = none := by
  induction l with
  | nil => rfl
  | cons kv rest ih =>
      simp only [List.map_cons, List.mem_cons] at h
      push_neg at h
      have hne : kv.1 ≠ t := Ne.symm h.1
      simp [lookupKey, hne, ih h.2]

lemma eraseKey_of_not_mem {α : Type} (l : List (Ticker × α)) (t : Ticker)
    (h : t ∉ l.map Prod.fst) : eraseKey l t = l := by
  induction l with
  | nil => rfl
  | cons kv rest ih =>
      simp only [List.map_cons, List.mem_cons] at h
      push_neg at h
      have hne : kv.1 ≠ t := Ne.symm h.1
      simp [eraseKey, hne, ih h.2]

lemma mem_keys_eraseKey {α : Type} (l : List (Ticker × α)) (t s : Ticker)
    (h : s ∈ (eraseKey l t).map Prod.fst) : s ∈ l.map Prod.fst := by
  induction l with
  | nil => simp [eraseKey] at h
  | cons kv rest ih =>
      by_cases hkv : kv.1 = t
      · simp only [eraseKey, if_pos hkv] at h
        exact List.mem_cons_of_mem _ (ih h)
      · simp only [eraseKey, if_neg hkv, List.map_cons, List.mem_cons] at h ⊢
        rcases h with h | h
        · exact Or.inl h
        · exact Or.inr (ih h)

lemma keysNodup_eraseKey {α : Type} (l : List (Ticker × α)) (t : Ticker)
    (h : keysNodup l) : keysNodup (eraseKey l t) := by
  induction l with
  | nil => simpa [eraseKey] using h
  | cons kv rest ih =>
      simp only [keysNodup, List.map_cons, List.nodup_cons] at h
      by_cases hkv : kv.1 = t
      · simpa only [eraseKey, if_pos hkv] using ih h.2
      · simp only [eraseKey, if_neg hkv, keysNodup, List.map_cons, List.nodup_cons]
        exact ⟨fun hm => h.1 (mem_keys_eraseKey rest t kv.1 hm), ih h.2⟩

lemma mem_keys_setKey {α : Type} (l : List (Ticker × α)) (t s : Ticker) (v : α)
    (h : s ∈ (setKey l t v).map Prod.fst) : s ∈ l.map Prod.fst ∨ s = t := by
  induction l with
  | nil =>
      simp only [setKey, List.map_cons, List.map_nil, List.mem_singleton] at h
      exact Or.inr h
  | cons kv rest ih =>
      by_cases hkv : kv.1 = t
      · simp only [setKey, if_pos hkv, List.map_cons, List.mem_cons] at h
        rcases h with h | h
        · exact Or.inr h
        · exact Or.inl (List.mem_cons_of_mem _ h)
      · simp only [setKey, if_neg hkv, List.map_cons, List.mem_cons] at h ⊢
        rcases h with h | h
        · exact Or.inl (Or.inl h)
        · rcases ih h with h' | h'
          · exact Or.inl (Or.inr h')
          · exact Or.inr h'

lemma keysNodup_setKey {α : Type} (l : List (Ticker × α)) (t : Ticker) (v : α)
    (h : keysNodup l) : keysNodup (setKey l t v) := by
  induction l with
  | nil => simp [setKey, keysNodup]
  | cons kv rest ih =>
      simp only [keysNodup, List.map_cons, List.nodup_cons] at h
      by_cases hkv : kv.1 = t
      · simp only [setKey, if_pos hkv, keysNodup, List.map_cons, List.nodup_cons]
        exact ⟨hkv ▸ h.1, h.2⟩
      · simp only [setKey, if_neg hkv, keysNodup, List.map_cons, List.nodup_cons]
        refine ⟨fun hm => ?_, ih h.2⟩
        rcases mem_keys_setKey rest t kv.1 v hm with h' | h'
        · exact h.1 h'
        · exact hkv h'

lemma sumMargins_eraseKey (l : List (Ticker × Position)) (t : Ticker)
    (h : keysNodup l) :
    sumMargins (eraseKey l t) =
      sumMargins l - ((lookupKey l t).getD defaultPos).margin := by
  induction l with
  | nil => simp [eraseKey, lookupKey, sumMargins, defaultPos]
  | cons kv rest ih =>
      simp only [keysNodup, List.map_cons, List.nodup_cons] at h
      by_cases hkv : kv.1 = t
      · have hnm : t ∉ rest.map Prod.fst := hkv ▸ h.1
        simp [eraseKey, if_pos hkv, lookupKey, hkv, eraseKey_of_not_mem rest t hnm,
          sumMargins]
      · simp only [eraseKey, if_neg hkv, lookupKey, if_neg hkv, sumMargins,
          List.map_cons, List.sum_cons]
        have := ih h.2
        simp only [sumMargins] at this
        rw [this]
        ring

lemma sumMargins_setKey (l : List (Ticker × Position)) (t : Ticker) (v : Position)
    (h : keysNodup l) :
    sumMargins (setKey l t v) =
      sumMargins l - ((lookupKey l t).getD defaultPos).margin + v.margin := by
  induction l with
  | nil => simp [setKey, lookupKey, sumMargins, defaultPos]
  | cons kv rest ih =>
      simp only [keysNodup, List.map_cons, List.nodup_cons] at h
      by_cases hkv : kv.1 = t
      · simp only [setKey, if_pos hkv, lookupKey, if_pos hkv, sumMargins,
          List.map_cons, List.sum_cons, Option.getD_some]
        ring
      · simp only [setKey, if_neg hkv, lookupKey, if_neg hkv, sumMargins,
          List.map_cons, List.sum_cons]
        have := ih h.2
        simp only [sumMargins] at this
        rw [this]
        ring

lemma calcExecutionPrice_frame (p : Portfolio) (d : PortfolioData) (t : Ticker)
    (e : ℚ) (l : ℤ) (dir : Direction) (atr : Option ℚ) (j : ℚ) :
    (calcExecutionPrice p d t e l dir atr j).2.balance = d.balance ∧
    (calcExecutionPrice p d t e l dir atr j).2.initial_balance = d.initial_balance ∧
    (calcExecutionPrice p d t e l dir atr j).2.used_margin = d.used_margin ∧
    (calcExecutionPrice p d t e l dir atr j).2.positions = d.positions ∧
    (calcExecutionPrice p d t e l dir atr j).2.history = d.history ∧
    (calcExecutionPrice p d t e l dir atr j).2.balance_history = d.balance_history ∧
    (calcExecutionPrice p d t e l dir atr j).2.total_commission = d.total_commission ∧
    (calcExecutionPrice p d t e l dir atr j).2.next_trade_id = d.next_trade_id ∧
    (calcExecutionPrice p d t e l dir atr j).2.atr_history = d.atr_history := by
  cases hs : p.spread_calculator <;> cases hl : p.slippage_simulator <;>
    simp [calcExecutionPrice, hs, hl]

lemma closePath_spec (p : Portfolio) (env : Env) (t : Ticker) (cp : Position)
    (price : ℚ) (atr : Option ℚ) :
    (closePath p env t cp price atr).2 = .closed ∧
    (closePath p env t cp price atr).1.data.used_margin =
      p.data.used_margin - cp.margin ∧
    (closePath p env t cp price atr).1.data.positions =
      eraseKey p.data.positions t := by
  obtain ⟨h1, h2, h3, h4, h5, h6, h7, h8, h9⟩ :=
    calcExecutionPrice_frame p p.data t price cp.lots
      (if cp.lots < 0 then Direction.sell else Direction.buy) atr env.jitter
  refine ⟨rfl, ?_, ?_⟩ <;> simp [closePath, h3, h4]

lemma openPath_spec (p : Portfolio) (env : Env) (t : Ticker) (cp : Position)
    (tl dl : ℤ) (price : ℚ) (sl tp mpl atr : Option ℚ) :
    ((openPath p env t cp tl dl price sl tp mpl atr).2 = .rejectedFunds ∧
      coreFrame p.data (openPath p env t cp tl dl price sl tp mpl atr).1.data) ∨
    (∃ pos' : Position, (openPath p env t cp tl dl price sl tp mpl atr).2 = .updated ∧
      (openPath p env t cp tl dl price sl tp mpl atr).1.data.positions =
        setKey p.data.positions t pos' ∧
      (openPath p env t cp tl dl price sl tp mpl atr).1.data.used_margin =
        p.data.used_margin + (pos'.margin - cp.margin)) := by
  obtain ⟨h1, h2, h3, h4, h5, h6, h7, h8, h9⟩ :=
    calcExecutionPrice_frame p p.data t price tl
      (if tl < 0 then Direction.buy else Direction.sell) atr env.jitter
  by_cases hf :
      (calcExecutionPrice p p.data t price tl
          (if tl < 0 then Direction.buy else Direction.sell) atr env.jitter).2.balance -
        (calcExecutionPrice p p.data t price tl
          (if tl < 0 then Direction.buy else Direction.sell) atr env.jitter).2.used_margin <
      (mpl.getD ((calcExecutionPrice p p.data t price tl
          (if tl < 0 then Direction.buy else Direction.sell) atr env.jitter).1 * (1/10))) *
        (tl.natAbs : ℚ)
  · left
    constructor
    · simp only [openPath, if_pos hf]
    · simp only [openPath, if_pos hf, coreFrame]
      exact ⟨h1, h2, h3, h4, h5, h6, h7, h8⟩
  · right
    refine ⟨{ lots := tl
              avg_price := (calcExecutionPrice p p.data t price tl
                (if tl < 0 then Direction.buy else Direction.sell) atr env.jitter).1
              stop_loss := sl
              take_profit := tp
              margin := (mpl.getD ((calcExecutionPrice p p.data t price tl
                (if tl < 0 then Direction.buy else Direction.sell) atr env.jitter).1 * (1/10))) *
                (tl.natAbs : ℚ)
              trade_id := some (cp.trade_id.getD (calcExecutionPrice p p.data t price tl
                (if tl < 0 then Direction.buy else Direction.sell) atr env.jitter).2.next_trade_id)
              opened_at := some (cp.opened_at.getD env.now)
              accumulated_commission := cp.accumulated_commission +
                |(calcExecutionPrice p p.data t price tl
                  (if tl < 0 then Direction.buy else Direction.sell) atr env.jitter).1 *
                  (dl.natAbs : ℚ)| * p.commission_rate }, ?_, ?_, ?_⟩
    · simp only [openPath, if_neg hf]
    · simp only [openPath, if_neg hf]
      rw [h4]
    · simp only [openPath, if_neg hf]
      rw [h3]

lemma closePath_inv (p : Portfolio) (env : Env) (t : Ticker) (cp : Position)
    (price : ℚ) (atr : Option ℚ)
    (hcp : cp = (lookupKey p.data.positions t).getD defaultPos)
    (hnd : keysNodup p.data.positions) (hinv : marginInvariant p.data) :
    keysNodup (closePath p env t cp price atr).1.data.positions ∧
    marginInvariant (closePath p env t cp price atr).1.data := by
  obtain ⟨-, hused, hpos⟩ := closePath_spec p env t cp price atr
  constructor
  · rw [hpos]
    exact keysNodup_eraseKey _ _ hnd
  · unfold marginInvariant at hinv ⊢
    rw [hused, hpos, sumMargins_eraseKey _ _ hnd, hinv, hcp]

lemma openPath_inv (p : Portfolio) (env : Env) (t : Ticker) (cp : Position)
    (tl dl : ℤ) (price : ℚ) (sl tp mpl atr : Option ℚ)
    (hcp : cp = (lookupKey p.data.positions t).getD defaultPos)
    (hnd : keysNodup p.data.positions) (hinv : marginInvariant p.data) :
    keysNodup (openPath p env t cp tl dl price sl tp mpl atr).1.data.positions ∧
    marginInvariant (openPath p env t cp tl dl price sl tp mpl atr).1.data := by
  rcases openPath_spec p env t cp tl dl price sl tp mpl atr with
    ⟨-, ⟨-, -, hused, hpos, -, -, -, -⟩⟩ | ⟨pos', -, hpos, hused⟩
  · constructor
    · rw [hpos]
      exact hnd
    · unfold marginInvariant at hinv ⊢
      rw [hused, hpos]
      exact hinv
  · constructor
    · rw [hpos]
      exact keysNodup_setKey _ _ _ hnd
    · unfold marginInvariant at hinv ⊢
      rw [hused, hpos, sumMargins_setKey _ _ _ hnd, hinv, hcp]
      ring

lemma preparedData_frame (d : PortfolioData) (t : Ticker) (atr : Option ℚ) :
    coreFrame d (preparedData d t atr) := by
  unfold preparedData coreFrame
  split <;> exact ⟨rfl, rfl, rfl, rfl, rfl, rfl, rfl, rfl⟩

lemma gated_coreFrame (p : Portfolio) (env : Env) (t : Ticker) (tl : ℤ)
    (price : ℚ) (atr : Option ℚ) :
    coreFrame p.data (gatedPortfolio p env t tl price atr).1.data :=
  preparedData_frame p.data t atr

lemma gated_positions (p : Portfolio) (env : Env) (t : Ticker) (tl : ℤ)
    (price : ℚ) (atr : Option ℚ) :
    (gatedPortfolio p env t tl price atr).1.data.positions = p.data.positions :=
  (gated_coreFrame p env t tl price atr).2.2.2.1

lemma gated_used_margin (p : Portfolio) (env : Env) (t : Ticker) (tl : ℤ)
    (price : ℚ) (atr : Option ℚ) :
    (gatedPortfolio p env t tl price atr).1.data.used_margin = p.data.used_margin :=
  (gated_coreFrame p env t tl price atr).2.2.1

lemma closePath_tag (p : Portfolio) (env : Env) (t : Ticker) (cp : Position)
    (price : ℚ) (atr : Option ℚ) :
    (closePath p env t cp price atr).2 = .closed := rfl

/-- C2: at every quiescent point — in the fresh ledger, and after any
completed `update_position` call on a well-formed state — `used_margin`
equals the sum of the `margin` fields over all open positions (and key
well-formedness is preserved). -/
theorem C2_used_margin_invariant :
    (∀ ib : ℚ, marginInvariant (initData ib)) ∧
    ∀ (p : Portfolio) (env : Env) (t : Ticker) (tl : ℤ) (price : ℚ)
      (sl tp mpl atr : Option ℚ),
      keysNodup p.data.positions → marginInvariant p.data →
      keysNodup (update_position p env t tl price sl tp mpl atr).1.data.positions ∧
      marginInvariant (update_position p env t tl price sl tp mpl atr).1.data := by
  constructor
  · intro ib
    simp [marginInvariant, initData, sumMargins]
  · intro p env t tl price sl tp mpl atr hnd hinv
    have hgp := gated_positions p env t tl price atr
    have hgu := gated_used_margin p env t tl price atr
    have hnd1 : keysNodup (gatedPortfolio p env t tl price atr).1.data.positions := by
      rw [hgp]; exact hnd
    have hinv1 : marginInvariant (gatedPortfolio p env t tl price atr).1.data := by
      unfold marginInvariant
      rw [hgp, hgu]; exact hinv
    have hcp : ((lookupKey p.data.positions t).getD defaultPos) =
        (lookupKey (gatedPortfolio p env t tl price atr).1.data.positions t).getD defaultPos := by
      rw [hgp]
    simp only [update_position]
    split_ifs with h0 h1 h2 h3 h4
    · exact ⟨hnd, hinv⟩
    · exact ⟨hnd, hinv⟩
    · exact ⟨hnd, hinv⟩
    · exact ⟨hnd1, hinv1⟩
    · exact closePath_inv _ env t _ price atr hcp hnd1 hinv1
    · exact openPath_inv _ env t _ tl
        (tl - ((lookupKey p.data.positions t).getD defaultPos).lots) price sl tp mpl atr
        hcp hnd1 hinv1

lemma coreFrame_trans {a b c : PortfolioData} (h1 : coreFrame a b)
    (h2 : coreFrame b c) : coreFrame a c := by
  obtain ⟨x1, x2, x3, x4, x5, x6, x7, x8⟩ := h1
  obtain ⟨y1, y2, y3, y4, y5, y6, y7, y8⟩ := h2
  exact ⟨y1.trans x1, y2.trans x2, y3.trans x3, y4.trans x4, y5.trans x5,
    y6.trans x6, y7.trans x7, y8.trans x8⟩

/-- C4 (amended): market-closed and invalid-size rejections return with
the portfolio completely untouched; risk-veto and insufficient-funds
rejections leave balance, initial balance, used margin, positions, trade
history, balance history, the commission counter and `next_trade_id`
unchanged (the ATR ring buffer, the spread/slippage cost counters and the
risk manager's own tracking state may change first). -/
theorem C4_rejections_leave_core_state (p : Portfolio) (env : Env) (t : Ticker)
    (tl : ℤ) (price : ℚ) (sl tp mpl atr : Option ℚ) :
    (((update_position p env t tl price sl tp mpl atr).2 = .rejectedMarket ∨
      (update_position p env t tl price sl tp mpl atr).2 = .rejectedSize) →
      (update_position p env t tl price sl tp mpl atr).1 = p) ∧
    (((update_position p env t tl price sl tp mpl atr).2 = .rejectedRisk ∨
      (update_position p env t tl price sl tp mpl atr).2 = .rejectedFunds) →
      coreFrame p.data (update_position p env t tl price sl tp mpl atr).1.data) := by
  simp only [update_position]
  split_ifs with h0 h1 h2 h3 h4
  · exact ⟨fun h => rfl, fun h => by rcases h with h | h <;> simp at h⟩
  · exact ⟨fun h => rfl, fun h => by rcases h with h | h <;> simp at h⟩
  · exact ⟨fun h => rfl, fun h => by rcases h with h | h <;> simp at h⟩
  · exact ⟨fun h => by rcases h with h | h <;> simp at h,
      fun h => gated_coreFrame p env t tl price atr⟩
  · refine ⟨fun h => ?_, fun h => ?_⟩ <;>
      rcases h with h | h <;> rw [closePath_tag] at h <;> simp at h
  · rcases openPath_spec (gatedPortfolio p env t tl price atr).1 env t
        ((lookupKey p.data.positions t).getD defaultPos) tl
        (tl - ((lookupKey p.data.positions t).getD defaultPos).lots)
        price sl tp mpl atr with ⟨htag, hcf⟩ | ⟨pos', htag, -, -⟩
    · refine ⟨fun h => ?_, fun h => ?_⟩
      · rcases h with h | h <;> rw [htag] at h <;> simp at h
      · exact coreFrame_trans (gated_coreFrame p env t tl price atr) hcf
    · refine ⟨fun h => ?_, fun h => ?_⟩ <;>
        rcases h with h | h <;> rw [htag] at h <;> simp at h

/-- C1: the §8 scenario, exactly. With spread, slippage and risk manager
disabled, commission rate 0.0005 and `margin_per_lot = 10`, opening
`target_lots = -2` at price 100 from balance 200000 reserves margin 20,
charges commission 0.1 and leaves balance 199979.9, used margin 20 and a
position `lots = -2, avg_price = 100`; the subsequent close at price 110
realises profit −20, commission 0.11, net −20.11, leaves balance
199979.79, used margin 0 and removes the position. -/
theorem C1_scenario_exact :
    scenarioOpen.2 = .updated ∧
    scenarioOpen.1.data.balance = 1999799/10 ∧
    scenarioOpen.1.data.used_margin = 20 ∧
    lookupKey scenarioOpen.1.data.positions 0 =
      some { lots := -2, avg_price := 100, stop_loss := none, take_profit := none
             margin := 20, trade_id := some 1, opened_at := some 0
             accumulated_commission := 1/10 } ∧
    (scenarioOpen.1.data.history.getLast?).map
        (fun r => (r.commission, r.margin_reserved)) = some (1/10, some 20) ∧
    scenarioClose.2 = .closed ∧
    scenarioClose.1.data.balance = 19997979/100 ∧
    scenarioClose.1.data.used_margin = 0 ∧
    lookupKey scenarioClose.1.data.positions 0 = none ∧
    (scenarioClose.1.data.history.getLast?).map
        (fun r => (r.profit, r.commission, r.net_profit)) =
      some (some (-20), 11/100, some (-2011/100)) := by
  norm_num [scenarioClose, scenarioOpen, scenarioLedger, scenarioEnv, update_position,
    gatedPortfolio, preparedData, riskGate, openPath, closePath, calcExecutionPrice,
    avgAtr, atrTruthy, lookupKey, setKey, eraseKey, updAtrHistory,
    TradingRestrictions.validate_position_size, initData, defaultPos]

/-- C10: for a ticker with no open position, `update_position` with
`target_lots = 0` computes a zero lot difference and returns before any
validation: the result is the unchanged portfolio and no record is
appended. -/
theorem C10_flat_ticker_zero_target_is_noop (p : Portfolio) (env : Env)
    (t : Ticker) (price : ℚ) (sl tp mpl atr : Option ℚ)
    (h : lookupKey p.data.positions t = none) :
    update_position p env t 0 price sl tp mpl atr = (p, .noop) := by
  simp [update_position, h, defaultPos]

/-- C10 witness: the theorem applied to the scenario ledger and an
unknown ticker. -/
theorem C10_witness :
    update_position scenarioLedger scenarioEnv 5 0 100 none none none none =
      (scenarioLedger, .noop) :=
  C10_flat_ticker_zero_target_is_noop scenarioLedger scenarioEnv 5 100
    none none none none rfl

lemma reset_daily_tracking_paused (rm : RiskManager) (today : ℕ) (b : ℚ) :
    (rm.reset_daily_tracking today b).trading_paused = rm.trading_paused := by
  unfold RiskManager.reset_daily_tracking
  split <;> rfl

lemma check_daily_loss_limit_snd_paused (rm : RiskManager) (today : ℕ) (b : ℚ) :
    (rm.check_daily_loss_limit today b).2.trading_paused = rm.trading_paused := by
  simp only [RiskManager.check_daily_loss_limit]
  split_ifs <;> exact reset_daily_tracking_paused rm today b

lemma none_eq_some_iff_false {α : Type} (a : α) :
    ((none : Option α) = some a) ↔ False :=
  ⟨fun h => Option.noConfusion h, False.elim⟩

/-- C3 counterexample: with peak 200000 and max drawdown 20%, a call at
balance 100000 is vetoed and sets the sticky pause flag, but the very next
call with recovered balance 200000 returns `True` although
`resume_trading()` was never invoked — the claim's "remains False on
every subsequent call until resume_trading()" fails on the code. -/
theorem C3_counterexample :
    c3call1.1.1 = false ∧ c3call1.2.trading_paused = true ∧
    c3call2.1.1 = true ∧ c3call2.2.trading_paused = true := by
  have h1 : c3call1 = ((false, some RiskReason.drawdownExceeded), c3rm2) := by
    norm_num [c3call1, c3rm1, c3rm0, c3rm2, RiskManager.init,
      RiskManager.update_peak_balance, RiskManager.can_open_position,
      RiskManager.check_max_drawdown, RiskManager.calculate_drawdown]
  have h2 : c3call2.1.1 = true ∧ c3call2.2.trading_paused = true := by
    norm_num [c3call2, h1, c3rm2, RiskManager.can_open_position,
      RiskManager.check_max_drawdown, RiskManager.calculate_drawdown,
      RiskManager.check_daily_loss_limit, RiskManager.reset_daily_tracking,
      RiskManager.calculate_daily_pnl, RiskManager.check_position_count,
      RiskManager.validate_position_size, none_eq_some_iff_false]
  exact ⟨by rw [h1], by rw [h1, c3rm2], h2.1, h2.2⟩

/-- C3 (amended): any `can_open_position` call whose balance satisfies
`balance ≤ peak × (1 − max_drawdown)` (with positive peak) returns `False`
and sets the sticky `trading_paused` flag; no `can_open_position` call
ever clears that flag — only `resume_trading()` does. The flag, however,
is not consulted by `can_open_position`, so the veto itself is not sticky
(see the counterexample). -/
theorem C3_drawdown_veto_and_pause_flag :
    (∀ (rm : RiskManager) (today : ℕ) (bal : ℚ) (npos : ℕ) (pv : ℚ),
      0 < rm.peak_balance → bal ≤ rm.peak_balance * (1 - rm.max_drawdown) →
      (rm.can_open_position today bal npos pv).1.1 = false ∧
      (rm.can_open_position today bal npos pv).2.trading_paused = true) ∧
    (∀ (rm : RiskManager) (today : ℕ) (bal : ℚ) (npos : ℕ) (pv : ℚ),
      rm.trading_paused = true →
      (rm.can_open_position today bal npos pv).2.trading_paused = true) ∧
    (∀ rm : RiskManager, rm.resume_trading.trading_paused = false) := by
  refine ⟨?_, ?_, fun rm => rfl⟩
  · intro rm today bal npos pv hpeak hbal
    have hne : rm.peak_balance ≠ 0 := ne_of_gt hpeak
    have hdd : rm.max_drawdown ≤ rm.calculate_drawdown bal := by
      unfold RiskManager.calculate_drawdown
      rw [if_neg hne, le_div_iff₀ hpeak]
      nlinarith [hbal]
    have hchk : rm.check_max_drawdown bal = (false, some .drawdownExceeded) := by
      unfold RiskManager.check_max_drawdown
      rw [if_pos hdd]
    constructor <;> simp [RiskManager.can_open_position, hchk]
  · intro rm today bal npos pv hp
    simp only [RiskManager.can_open_position]
    split_ifs <;>
      simp [check_daily_loss_limit_snd_paused, hp]

/-- C3 witness: the amended theorem applied at peak 200000, balance
100000, max drawdown 20%. -/
theorem C3_witness :
    (c3rm1.can_open_position 0 100000 0 1).1.1 = false ∧
    (c3rm1.can_open_position 0 100000 0 1).2.trading_paused = true :=
  C3_drawdown_veto_and_pause_flag.1 c3rm1 0 100000 0 1
    (by norm_num [c3rm1, c3rm0, RiskManager.update_peak_balance, RiskManager.init])
    (by norm_num [c3rm1, c3rm0, RiskManager.update_peak_balance, RiskManager.init])

lemma check_daily_loss_limit_snd_peak (rm : RiskManager) (today : ℕ) (b : ℚ) :
    (rm.check_daily_loss_limit today b).2.peak_balance = rm.peak_balance := by
  simp only [RiskManager.check_daily_loss_limit, RiskManager.reset_daily_tracking]
  split_ifs <;> rfl

/-- C5 counterexample: a `can_open_position` call on a fresh risk manager
with balance 100 leaves the peak watermark at 0 — the claim that every
evaluation updates the watermark with the current balance before the
drawdown check fails on the code. -/
theorem C5_counterexample :
    (c3rm0.can_open_position 0 100 0 1).2.peak_balance = 0 ∧ (0 : ℚ) ≠ 100 := by
  constructor
  · norm_num [c3rm0, RiskManager.init, RiskManager.can_open_position,
      RiskManager.check_max_drawdown, RiskManager.calculate_drawdown,
      RiskManager.check_daily_loss_limit, RiskManager.reset_daily_tracking,
      RiskManager.calculate_daily_pnl, RiskManager.check_position_count,
      RiskManager.validate_position_size, none_eq_some_iff_false]
  · norm_num

/-- C5 (amended): `update_peak_balance` never lowers the watermark and
raises it to at least the supplied balance, so the watermark is
monotonically non-decreasing; `can_open_position` performs its drawdown
check against the stored peak without updating it. -/
theorem C5_peak_watermark_monotone_but_not_updated_by_gate :
    (∀ (rm : RiskManager) (b : ℚ),
      rm.peak_balance ≤ (rm.update_peak_balance b).peak_balance ∧
      b ≤ (rm.update_peak_balance b).peak_balance) ∧
    (∀ (rm : RiskManager) (today : ℕ) (bal : ℚ) (npos : ℕ) (pv : ℚ),
      (rm.can_open_position today bal npos pv).2.peak_balance = rm.peak_balance) := by
  constructor
  · intro rm b
    unfold RiskManager.update_peak_balance
    split_ifs with h
    · exact ⟨le_of_lt h, le_refl b⟩
    · exact ⟨le_refl _, not_lt.mp h⟩
  · intro rm today bal npos pv
    simp only [RiskManager.can_open_position]
    split_ifs <;> simp [check_daily_loss_limit_snd_peak]

lemma slippageBeforeJitter_nonneg (s : SlippageSimulator) (lots : ℤ)
    (atr avg_atr : Option ℚ) (hb : 0 ≤ s.base_slippage)
    (hv : 0 ≤ s.volume_factor) (hm : 0 ≤ s.volatility_multiplier)
    (hx : 0 ≤ s.max_slippage) : 0 ≤ s.slippageBeforeJitter lots atr avg_atr := by
  have hvol : (0 : ℚ) ≤ ((lots.natAbs / 10 : ℕ) : ℚ) * s.volume_factor :=
    mul_nonneg (Nat.cast_nonneg _) hv
  have hbase : (0 : ℚ) ≤ s.base_slippage + ((lots.natAbs / 10 : ℕ) : ℚ) * s.volume_factor :=
    add_nonneg hb hvol
  simp only [SlippageSimulator.slippageBeforeJitter]
  apply le_min _ hx
  split
  · rename_i a av
    split_ifs with h1 h2
    · have hterm : (0 : ℚ) ≤ (a / av - 1) * s.base_slippage * s.volatility_multiplier :=
        mul_nonneg (mul_nonneg (by linarith) hb) hm
      linarith
    · exact hbase
    · exact hbase
  · exact hbase
  · exact hbase
  · exact hbase

/-- C6: for every positive expected price, any lot count and ATR context,
non-negative configured slippage parameters and any jitter draw in
[0.8, 1.2], the slippage-adjusted price is ≥ the expected price for a
"buy" and ≤ it for a "sell". -/
theorem C6_slippage_always_adverse :
    ∀ (s : SlippageSimulator) (price : ℚ) (lots : ℤ) (atr avg_atr : Option ℚ)
      (jitter : ℚ),
      0 < price → 0 ≤ s.base_slippage → 0 ≤ s.volume_factor →
      0 ≤ s.volatility_multiplier → 0 ≤ s.max_slippage →
      4/5 ≤ jitter → jitter ≤ 6/5 →
      price ≤ s.calculate_slippage price lots .buy atr avg_atr jitter ∧
      s.calculate_slippage price lots .sell atr avg_atr jitter ≤ price := by
  intro s price lots atr avg_atr jitter hp hb hv hm hx hj1 hj2
  have hs : 0 ≤ s.slippageBeforeJitter lots atr avg_atr :=
    slippageBeforeJitter_nonneg s lots atr avg_atr hb hv hm hx
  have hsj : 0 ≤ s.slippageBeforeJitter lots atr avg_atr * jitter :=
    mul_nonneg hs (by linarith)
  constructor <;>
    · simp only [SlippageSimulator.calculate_slippage]
      nlinarith [mul_nonneg hp.le hsj]

/-- C6 witness: the theorem applied at price 100, 3 lots, the default
configuration percentages and jitter 1. -/
theorem C6_witness :
    (100 : ℚ) ≤ c6sim.calculate_slippage 100 3 .buy none none 1 ∧
    c6sim.calculate_slippage 100 3 .sell none none 1 ≤ 100 :=
  C6_slippage_always_adverse c6sim 100 3 none none 1 (by norm_num)
    (by norm_num [c6sim, SlippageSimulator.init])
    (by norm_num [c6sim, SlippageSimulator.init])
    (by norm_num [c6sim, SlippageSimulator.init])
    (by norm_num [c6sim, SlippageSimulator.init])
    (by norm_num) (by norm_num)

/-- C7: `calculate_sharpe_ratio` returns 0 on an empty list, on fewer
than two returns, and on zero sample standard deviation (zero sample
variance); `calculate_profit_factor` returns 0 on an empty trade list and
`+infinity` (`⊤`) on a nonempty list whose trades all have positive net
profit. -/
theorem C7_metric_edge_cases :
    (∀ (rf ppy : ℚ), calculate_sharpe_ratio rf [] ppy = 0) ∧
    (∀ (rf ppy : ℚ) (rs : List ℚ), rs.length < 2 →
      calculate_sharpe_ratio rf rs ppy = 0) ∧
    (∀ (rf ppy : ℚ) (rs : List ℚ), sampleVariance rs = 0 →
      calculate_sharpe_ratio rf rs ppy = 0) ∧
    calculate_profit_factor [] = 0 ∧
    (∀ ts : List TradeRecord, ts ≠ [] → (∀ t ∈ ts, 0 < netProfitOf t) →
      calculate_profit_factor ts = ⊤) := by
  refine ⟨?_, ?_, ?_, ?_, ?_⟩
  · intro rf ppy
    simp [calculate_sharpe_ratio]
  · intro rf ppy rs h
    simp [calculate_sharpe_ratio, h]
  · intro rf ppy rs h
    by_cases h1 : rs.length < 2
    · simp [calculate_sharpe_ratio, h1]
    · simp [calculate_sharpe_ratio, h1, h]
  · simp [calculate_profit_factor]
  · intro ts hne hpos
    have hf1 : ts.filter (fun t => 0 < netProfitOf t) = ts := by
      rw [List.filter_eq_self]
      intro a ha
      simpa using hpos a ha
    have hf2 : ts.filter (fun t => netProfitOf t < 0) = [] := by
      rw [List.filter_eq_nil_iff]
      intro a ha
      simp only [decide_eq_true_eq, not_lt]
      exact (hpos a ha).le
    have hgp : 0 < ((ts.filter fun t => 0 < netProfitOf t).map netProfitOf).sum := by
      rw [hf1]
      refine List.sum_pos _ ?_ ?_
      · intro x hx
        obtain ⟨a, ha, rfl⟩ := List.mem_map.mp hx
        exact hpos a ha
      · simpa using hne
    simp only [calculate_profit_factor, if_neg hne, hf2, List.map_nil, List.sum_nil,
      abs_zero]
    simp [hgp]

/-- C7 witness: the theorem applied to a one-element returns list and a
one-trade all-profit list. -/
theorem C7_witness :
    calculate_sharpe_ratio 0 [1/2] 252 = 0 ∧
    calculate_profit_factor [c7trade] = ⊤ :=
  ⟨C7_metric_edge_cases.2.1 0 252 [1/2] (by norm_num),
   C7_metric_edge_cases.2.2.2.2 [c7trade] (by simp)
     (by
       intro t ht
       simp only [List.mem_singleton] at ht
       subst ht
       norm_num [netProfitOf, c7trade])⟩

lemma abs_roundHalfEven_sub_le (q : ℚ) : |(roundHalfEven q : ℚ) - q| ≤ 1/2 := by
  have h1 : (⌊q⌋ : ℚ) ≤ q := Int.floor_le q
  have h2 : q < ⌊q⌋ + 1 := Int.lt_floor_add_one q
  simp only [roundHalfEven]
  split_ifs with ha hb hc <;> rw [abs_le] <;> constructor <;> push_cast <;> linarith

/-- C8 counterexample: with base spread 0.03 and tick size 1 at mid 40 the
raw spread is 1.2; the code's `quantize` rounds half-to-even to 1 tick,
while the claim's "rounded up" would give 2 ticks. -/
theorem C8_counterexample :
    SpreadCalculator.calculate_spread c8sc 40 none none (some 1) = 1 ∧
    specRoundUpSpread c8sc 40 none none 1 = 2 ∧ (1 : ℚ) ≠ 2 := by
  have hpct : c8sc.spreadPercent none none = 3/100 := by
    norm_num [c8sc, SpreadCalculator.init, SpreadCalculator.spreadPercent]
  refine ⟨?_, ?_, by norm_num⟩
  · have hrd : roundHalfEven (40 * c8sc.spreadPercent none none / 1) = 1 := by
      rw [hpct]
      have h : (⌊(40 * (3/100) / 1 : ℚ)⌋ : ℤ) = 1 := by norm_num [Int.floor_eq_iff]
      simp only [roundHalfEven, h]
      norm_num
    simp only [SpreadCalculator.calculate_spread]
    rw [if_pos (by norm_num : (0:ℚ) < 1), hrd]
    norm_num
  · simp only [specRoundUpSpread]
    rw [hpct]
    have h : (⌈(40 * (3/100) / 1 : ℚ)⌉ : ℤ) = 2 := by norm_num [Int.ceil_eq_iff]
    rw [h]
    norm_num

/-- C8 (amended): with a positive tick size the returned spread is a
whole multiple of the tick, never less than one tick, and — unless the
one-tick floor applied — within half a tick of `mid × spread_pct`
(round-half-to-even to the nearest multiple, not rounded up). -/
theorem C8_spread_rounded_half_even_min_one_tick :
    ∀ (sc : SpreadCalculator) (mid : ℚ) (atr avg_atr : Option ℚ) (tick : ℚ),
      0 < tick →
      (∃ k : ℤ, sc.calculate_spread mid atr avg_atr (some tick) = k * tick) ∧
      tick ≤ sc.calculate_spread mid atr avg_atr (some tick) ∧
      (sc.calculate_spread mid atr avg_atr (some tick) ≠ tick →
        |sc.calculate_spread mid atr avg_atr (some tick) -
          mid * sc.spreadPercent atr avg_atr| ≤ tick / 2) := by
  intro sc mid atr avg_atr tick ht
  simp only [SpreadCalculator.calculate_spread]
  rw [if_pos ht]
  by_cases hlt : ((roundHalfEven (mid * sc.spreadPercent atr avg_atr / tick) : ℚ) * tick) < tick
  · rw [if_pos hlt]
    exact ⟨⟨1, (one_mul tick).symm⟩, le_refl tick, fun hne => absurd rfl hne⟩
  · rw [if_neg hlt]
    refine ⟨⟨roundHalfEven (mid * sc.spreadPercent atr avg_atr / tick), rfl⟩,
      not_lt.mp hlt, fun _ => ?_⟩
    have hb := abs_roundHalfEven_sub_le (mid * sc.spreadPercent atr avg_atr / tick)
    have hmul : |(roundHalfEven (mid * sc.spreadPercent atr avg_atr / tick) : ℚ) * tick -
        (mid * sc.spreadPercent atr avg_atr / tick) * tick| ≤ (1/2) * tick := by
      rw [← sub_mul, abs_mul, abs_of_pos ht]
      exact mul_le_mul_of_nonneg_right hb ht.le
    rw [div_mul_cancel₀ _ (ne_of_gt ht)] at hmul
    linarith [hmul]

/-- C8 witness: the amended theorem applied at mid 40, tick 1 and the
counterexample's configuration. -/
theorem C8_witness :
    (∃ k : ℤ, SpreadCalculator.calculate_spread c8sc 40 none none (some 1) = k * 1) ∧
    (1 : ℚ) ≤ SpreadCalculator.calculate_spread c8sc 40 none none (some 1) ∧
    (SpreadCalculator.calculate_spread c8sc 40 none none (some 1) ≠ 1 →
      |SpreadCalculator.calculate_spread c8sc 40 none none (some 1) -
        40 * c8sc.spreadPercent none none| ≤ 1 / 2) :=
  C8_spread_rounded_half_even_min_one_tick c8sc 40 none none 1 (by norm_num)

/-- C9: a snapshot whose balance parses as 500 but whose positions fail
to parse raises during `_load`, yet the engine ends initialization with
balance 500 — not the fresh default ledger the claim (and the source's
own comment) promises. A snapshot whose JSON parse fails outright does
reinitialize the defaults. -/
theorem C9_partial_parse_keeps_loaded_balance :
    loadRaises c9raw = true ∧
    (loadLedger 200000 (some (.ok c9raw))).balance = 500 ∧
    loadLedger 200000 (some (.ok c9raw)) ≠ initData 200000 ∧
    loadLedger 200000 (some (.error ())) = initData 200000 := by
  refine ⟨by simp [loadRaises, c9raw, Except.isOk, Except.toBool], ?_, ?_, rfl⟩
  · simp [loadLedger, loadFrom, c9raw]
  · intro h
    have hb := congrArg PortfolioData.balance h
    simp [loadLedger, loadFrom, c9raw, initData] at hb

/-- C4 counterexample: a risk-governor-vetoed call (max_open_positions
= 0) made with `atr = 5` appends the ATR to the `atr_history` ring buffer
even though the mutation is rejected — the claim's "atr_history ...
identical" fails on the code. -/
theorem C4_counterexample :
    (update_position c4p scenarioEnv 0 1 100 none none (some 10) (some 5)).2 =
      .rejectedRisk ∧
    (update_position c4p scenarioEnv 0 1 100 none none (some 10) (some 5)).1.data.atr_history =
      [(0, [5])] ∧
    c4p.data.atr_history = [] := by
  refine ⟨?_, ?_, rfl⟩ <;>
    norm_num [update_position, gatedPortfolio, preparedData, riskGate,
      RiskManager.can_open_position, RiskManager.check_max_drawdown,
      RiskManager.calculate_drawdown, RiskManager.check_daily_loss_limit,
      RiskManager.reset_daily_tracking, RiskManager.calculate_daily_pnl,
      RiskManager.check_position_count, RiskManager.validate_position_size,
      RiskManager.init, c4p, initData, lookupKey, setKey, updAtrHistory,
      atrTruthy, defaultPos, TradingRestrictions.validate_position_size,
      scenarioEnv, none_eq_some_iff_false]

/-- C4 witness: the amended theorem applied to a concrete risk-vetoed
call. -/
theorem C4_witness :
    coreFrame c4p.data
      (update_position c4p scenarioEnv 0 1 100 none none (some 10) (some 5)).1.data :=
  (C4_rejections_leave_core_state c4p scenarioEnv 0 1 100 none none (some 10)
    (some 5)).2 (Or.inl (by
      norm_num [update_position, gatedPortfolio, preparedData, riskGate,
        RiskManager.can_open_position, RiskManager.check_max_drawdown,
        RiskManager.calculate_drawdown, RiskManager.check_daily_loss_limit,
        RiskManager.reset_daily_tracking, RiskManager.calculate_daily_pnl,
        RiskManager.check_position_count, RiskManager.validate_position_size,
        RiskManager.init, c4p, initData, lookupKey, setKey, updAtrHistory,
        atrTruthy, defaultPos, TradingRestrictions.validate_position_size,
        scenarioEnv, none_eq_some_iff_false]))

/-- C2 witness: the invariant-preservation theorem applied to the
scenario's opening trade, whose hypotheses hold in the fresh ledger. -/
theorem C2_witness :
    keysNodup (update_position scenarioLedger scenarioEnv 0 (-2) 100
      none none (some 10) none).1.data.positions ∧
    marginInvariant (update_position scenarioLedger scenarioEnv 0 (-2) 100
      none none (some 10) none).1.data :=
  C2_used_margin_invariant.2 scenarioLedger scenarioEnv 0 (-2) 100 none none
    (some 10) none
    (by simp [scenarioLedger, initData, keysNodup])
    (by simp [marginInvariant, scenarioLedger, initData, sumMargins])
